import Mathlib

/-!
Shallow embedding of `src/pages/AssessmentResults.tsx` from the
Mental-Wellness-Tracker repository, together with theorems settling the
spec claims about that page.

Modelling conventions:
* TypeScript `number` values that the page treats as integers (scores,
  question ids) are embedded as `Int`; the JS `NaN` produced by a failed
  `parseInt` is embedded as `none : Option Int`.
* A TS `Record` literal is embedded as an association list in source
  order, and `Object.entries` of the `responses` record is embedded as a
  `List (String × String)` of key/value pairs in enumeration order.
* Fallible or environment-dependent operations are explicit parameters:
  the result of the supabase history query is an `Except` value, the
  locale-dependent `toLocaleString`/`toLocaleDateString` formatters are
  passed in as `String`-valued arguments.
-/

namespace AssessmentResults

/-- The `AssessmentResult` interface (source lines 28–34).  `overallScore`
is an integer on the 0–50 scale; `scores` and `metrics` are string-keyed
records embedded as association lists. -/
structure AssessmentResult where
  overallScore : Int
  scores : List (String × Int)
  insights : String
  metrics : List (String × Int)
  assessmentId : String
deriving DecidableEq, Repr

/-- The `Question` interface (source lines 36–40). -/
structure Question where
  id : Int
  text : String
  category : String
deriving DecidableEq, Repr

/-- The static `questionBank` table (source lines 42–53). -/
def questionBank : List Question :=
  [⟨1, "How would you rate your overall mood today?", "emotional"⟩,
   ⟨2, "How well did you sleep last night?", "sleep"⟩,
   ⟨3, "How stressed do you feel right now?", "stress"⟩,
   ⟨4, "How satisfied are you with your social connections?", "social"⟩,
   ⟨5, "How would you rate your energy levels?", "physical"⟩,
   ⟨6, "How balanced do you feel between work and personal life?", "balance"⟩,
   ⟨7, "How well are you taking care of yourself?", "selfcare"⟩,
   ⟨8, "How clear and focused is your thinking today?", "mental"⟩,
   ⟨9, "How well do you handle challenges?", "resilience"⟩,
   ⟨10, "How satisfied are you with your life overall?", "satisfaction"⟩]

/-- The `scaleLabels` record (source lines 55–61), embedded as an
association list in source order. -/
def scaleLabels : List (String × String) :=
  [("1", "Very Poor"), ("2", "Poor"), ("3", "Fair"), ("4", "Good"), ("5", "Excellent")]

/-- Model of the JS builtin `parseInt(s)` with the default radix 10 on the
inputs this page feeds it: skip leading whitespace, read an optional sign
and then the longest prefix of decimal digits, ignoring any trailing
characters; `none` models the `NaN` result when no digit is found.  (The
auto-detected hexadecimal `0x` form of `parseInt` is not modelled; no
claim and no witness input uses it.) -/
def parseIntJS (s : String) : Option Int :=
  let cs := s.data.dropWhile Char.isWhitespace
  let signed : Int × List Char :=
    match cs with
    | '-' :: r => (-1, r)
    | '+' :: r => (1, r)
    | r => (1, r)
  let ds := signed.2.takeWhile Char.isDigit
  if ds.isEmpty then none
  else some (signed.1 * ((ds.foldl (fun acc c => acc * 10 + (c.toNat - '0'.toNat)) 0 : Nat) : Int))

/-- Model of the JS expression `x || y` where `x : string | undefined`:
`undefined` and the empty string (the only falsy string) fall through to
`y`. -/
def jsOr (x : Option String) (y : String) : String :=
  match x with
  | some s => if s = "" then y else s
  | none => y

/-- Bracket access `table[key]` on a string-keyed record embedded as an
association list. -/
def recordGet (table : List (String × String)) (key : String) : Option String :=
  (table.find? (fun p => p.1 == key)).map (fun p => p.2)

/-- One row of `tableData` (source lines 157–167).  The `questionId` and
`score` fields hold the two `parseInt` results, with `none` for `NaN`. -/
structure TableRow where
  questionId : Option Int
  question : String
  category : String
  answer : String
  score : Option Int
deriving DecidableEq, Repr

/-- The body of the `tableData` map (source lines 157–167): `parseInt` the
key, look the id up in `questionBank` (a `NaN` id matches nothing, as in
JS where `q.id === NaN` is always false), and fall back to the
"Unknown question"/"Unknown" strings and to the raw answer code via
`||`. -/
def mkTableRow (entry : String × String) : TableRow :=
  let questionNum := parseIntJS entry.1
  let question := questionBank.find? (fun q => some q.id == questionNum)
  { questionId := questionNum
    question := jsOr (question.map Question.text) "Unknown question"
    category := jsOr (question.map Question.category) "Unknown"
    answer := jsOr (recordGet scaleLabels entry.2) entry.2
    score := parseIntJS entry.2 }

/-- `tableData` (source lines 157–167): one derived row per entry of the
`responses` record, in enumeration order. -/
def tableData (responses : List (String × String)) : List TableRow :=
  responses.map mkTableRow

/-- One fetched `mood_assessments` record, restricted to the two columns
this page reads (`overall_score`, `created_at`). -/
structure HistoryRecord where
  overall_score : Int
  created_at : String
deriving DecidableEq, Repr

/-- One point of `chartData` (source lines 150–154). -/
structure ChartPoint where
  name : String
  score : Int
  date : String
deriving DecidableEq, Repr

/-- `chartData` (source lines 150–154): reverse the fetched history (which
arrives newest-first) into chronological order and number the points from
1.  `fmtDate` stands for the locale-dependent
`new Date(x).toLocaleDateString()`. -/
def chartData (fmtDate : String → String) (assessmentHistory : List HistoryRecord) :
    List ChartPoint :=
  assessmentHistory.reverse.mapIdx
    (fun index assessment =>
      ⟨"Assessment " ++ toString (index + 1), assessment.overall_score,
        fmtDate assessment.created_at⟩)

/-- `getScoreColor` (source lines 170–175). -/
def getScoreColor (score : Int) : String :=
  if score ≥ 40 then "text-green-500"
  else if score ≥ 30 then "text-blue-500"
  else if score ≥ 20 then "text-yellow-500"
  else "text-red-500"

/-- Model of JS `String.prototype.trim`: drop whitespace characters from
both ends of the string. -/
def jsTrim (s : String) : String :=
  String.mk (((s.data.dropWhile Char.isWhitespace).reverse.dropWhile Char.isWhitespace).reverse)

/-- How a JS number interpolates into a template literal on this page:
`NaN` (embedded as `none`) prints as "NaN", an integer prints its decimal
digits. -/
def renderJSNumber : Option Int → String
  | some n => toString n
  | none => "NaN"

/-- The text of the score cell `{row.score}/5` in the table body (source
line 334). -/
def renderScoreCell (score : Option Int) : String :=
  renderJSNumber score ++ "/5"

/-- The text content built by `downloadResults` (source lines 177–189).
`now` stands for `new Date().toLocaleString()`, evaluated at the moment
the button is clicked; the rest is the template literal over
`results.overallScore`, `results.insights` and the joined `tableData`
question/answer lines, trimmed at both ends. -/
def downloadContent (now : String) (results : AssessmentResult)
    (responses : List (String × String)) : String :=
  jsTrim ("\nAssessment Results\nDate: " ++ now ++ "\nOverall Score: "
    ++ toString results.overallScore ++ "/50\n\nInsights:\n" ++ results.insights
    ++ "\n\nQuestions & Answers:\n"
    ++ String.intercalate "\n"
        ((tableData responses).map
          (fun row => "Q: " ++ row.question ++ "\nA: " ++ row.answer ++ "\n"))
    ++ "\n    ")

/-- The observable output of one render of the component (source lines
121–362): the loading splash, the "No Assessment Data" placeholder, or
the full page, of which we record the data-determined parts the claims
talk about — the score color class, the chart series when the
`chartData.length > 1` gate passes, and the breakdown table rows. -/
inductive RenderOutput where
  | loading
  | placeholder
  | page (scoreColor : String) (chart : Option (List ChartPoint)) (table : List TableRow)
deriving DecidableEq, Repr

/-- The chart series shown by a render output, if any. -/
def chartOf : RenderOutput → Option (List ChartPoint)
  | RenderOutput.page _ c _ => c
  | _ => none

/-- The component render (source lines 121–362): the loading branch, the
`!results` placeholder branch (source lines 131–147, reached before any
of the derivations), and the full page with the chart gated on
`chartData.length > 1` (source line 272). -/
def renderPage (fmtDate : String → String) (loading : Bool)
    (results : Option AssessmentResult) (responses : List (String × String))
    (assessmentHistory : List HistoryRecord) : RenderOutput :=
  if loading then RenderOutput.loading
  else
    match results with
    | none => RenderOutput.placeholder
    | some r =>
      let cd := chartData fmtDate assessmentHistory
      RenderOutput.page (getScoreColor r.overallScore)
        (if cd.length > 1 then some cd else none)
        (tableData responses)

/-- The navigation payload read from `location.state` (source lines
75–77).  `selectedQuestions` is read into a local but never used, so its
element type is irrelevant; we embed it as an optional list of ids. -/
structure NavState where
  results : Option AssessmentResult
  responses : Option (List (String × String))
  selectedQuestions : Option (List Int)
deriving DecidableEq, Repr

/-- State ingestion of the `responses` payload (source lines 82–84): the
`responses` state starts as the empty record and is overwritten only when
the payload field is present (truthy). -/
def ingestResponses : Option (List (String × String)) → List (String × String)
  | none => []
  | some r => r

/-- The page rendered after the mount effect has stored the navigation
payload and cleared `loading` (source lines 79–89), for a given fetched
history. -/
def pageAfterMount (fmtDate : String → String) (nav : NavState)
    (assessmentHistory : List HistoryRecord) : RenderOutput :=
  renderPage fmtDate false nav.results (ingestResponses nav.responses) assessmentHistory

/-- The external side effects the mount flow can issue. -/
inductive Effect where
  | sessionCheck
  | navigateAuth
  | historyFetch (userId : String)
deriving DecidableEq, Repr

/-- Effects of `checkAuth` (source lines 92–100): query the session; with
no session navigate to the auth route and stop; with a session trigger
the history fetch for that user. -/
def checkAuthEffects : Option String → List Effect
  | none => [Effect.sessionCheck, Effect.navigateAuth]
  | some uid => [Effect.sessionCheck, Effect.historyFetch uid]

/-- Effects of the mount `useEffect` (source lines 73–90): it calls
`checkAuth()` and otherwise only writes component-local state from
`location.state`, so the issued effects are exactly those of `checkAuth`,
whatever the payload holds. -/
def mountEffects (session : Option String) (_nav : NavState) : List Effect :=
  checkAuthEffects session

/-- Outcome of one run of `fetchAssessmentHistory` (source lines
102–119): the resulting history state, the console-error log entries, and
how many store queries were issued. -/
structure FetchOutcome where
  history : List HistoryRecord
  logs : List String
  queriesIssued : Nat
deriving DecidableEq, Repr

/-- `fetchAssessmentHistory` (source lines 102–119): a single query whose
outcome `resp` is either an error (a query error is re-thrown and lands
in the catch together with any other exception, where it is logged and
the prior state is kept) or a possibly-null `data` payload (null leaves
the state untouched, otherwise the state is replaced). -/
def fetchAssessmentHistory (prior : List HistoryRecord)
    (resp : Except String (Option (List HistoryRecord))) : FetchOutcome :=
  match resp with
  | Except.error e => { history := prior, logs := ["Error fetching history: " ++ e], queriesIssued := 1 }
  | Except.ok none => { history := prior, logs := [], queriesIssued := 1 }
  | Except.ok (some data) => { history := data, logs := [], queriesIssued := 1 }

/-- Spec-side helper: rank of the four color tiers returned by
`getScoreColor`, lowest tier first, used to state monotonicity. -/
def colorRank : String → Nat
  | "text-yellow-500" => 1
  | "text-blue-500" => 2
  | "text-green-500" => 3
  | _ => 0

/-- Spec-side helper: `sub` occurs contiguously inside `s`. -/
def containsSub (s sub : String) : Prop :=
  ∃ pre post, s = pre ++ (sub ++ post)

/-- Spec-side helper: the list is nonempty and starts with a
non-whitespace character (used to state when `jsTrim` leaves an end of a
string alone). -/
def headNonWS : List Char → Bool
  | [] => false
  | c :: _ => !c.isWhitespace

/-- Concrete example result used by witnesses: the instance fixed in the
spec (overallScore 42, insights "Good balance"). -/
def exResult : AssessmentResult :=
  { overallScore := 42, scores := [("emotional", 8)], metrics := [], insights := "Good balance",
    assessmentId := "a-1" }

/-- Concrete example responses record used by witnesses: the spec instance
with entries 1 ↦ "4" and 2 ↦ "5" in enumeration order. -/
def exResponses : List (String × String) := [("1", "4"), ("2", "5")]

/-- Concrete two-record history used by witnesses, newest first as fetched
(overall scores 45 then 30). -/
def exHistory2 : List HistoryRecord := [⟨45, "d2"⟩, ⟨30, "d1"⟩]

/-- A second example result that agrees with `exResult` on `overallScore`
and `insights` but differs everywhere else. -/
def exResultB : AssessmentResult :=
  { overallScore := 42, scores := [], metrics := [("m", 1)], insights := "Good balance",
    assessmentId := "b-2" }

/-- Example navigation payload carrying no `results`. -/
def exNavNone : NavState :=
  { results := none, responses := some exResponses, selectedQuestions := some [1, 2] }

/-- Example navigation payload with results and no `selectedQuestions`. -/
def exNavA : NavState :=
  { results := some exResult, responses := some exResponses, selectedQuestions := none }

/-- Example navigation payload identical to `exNavA` except for
`selectedQuestions`. -/
def exNavB : NavState :=
  { results := some exResult, responses := some exResponses, selectedQuestions := some [3, 1] }

/-- The concrete part of the exported text for `exResult`/`exResponses`
that follows the interpolated click time. -/
def exTail : String :=
  "\nOverall Score: 42/50\n\nInsights:\nGood balance\n\nQuestions & Answers:\n" ++
  "Q: How would you rate your overall mood today?\nA: Good\n\n" ++
  "Q: How well did you sleep last night?\nA: Excellent"

/-- String concatenation is associative (data-level fact lifted through
structure eta). -/
theorem string_append_assoc (a b c : String) : a ++ b ++ c = a ++ (b ++ c) :=
  congrArg String.mk (List.append_assoc a.data b.data c.data)

/-- Two strings with the same character data are equal. -/
theorem string_data_ext (a b : String) (h : a.data = b.data) : a = b :=
  congrArg String.mk h

/-- A list that starts with a non-whitespace character still does after
appending anything on the right. -/
theorem headNonWS_append (l1 l2 : List Char) (h : headNonWS l1 = true) :
    headNonWS (l1 ++ l2) = true := by
  cases l1 with
  | nil => exact absurd h (by decide)
  | cons c t => simpa [headNonWS] using h

/-- Trimming the exact whitespace the download template adds around its
payload gives back the payload, whenever the payload starts and ends with
a non-whitespace character. -/
theorem jsTrim_sandwich (s : String)
    (h1 : headNonWS s.data = true) (h2 : headNonWS s.data.reverse = true) :
    jsTrim ("\n" ++ s ++ "\n\n    ") = s := by
  cases hd : s.data with
  | nil => rw [hd] at h1; exact absurd h1 (by decide)
  | cons c t =>
    rw [hd] at h1
    have hc : c.isWhitespace = false := by simpa [headNonWS] using h1
    cases hr : s.data.reverse with
    | nil => rw [hr] at h2; exact absurd h2 (by decide)
    | cons d u =>
      rw [hr] at h2
      have hdw : d.isWhitespace = false := by simpa [headNonWS] using h2
      unfold jsTrim
      have hdata : ("\n" ++ s ++ "\n\n    ").data
          = '\n' :: (s.data ++ ['\n', '\n', ' ', ' ', ' ', ' ']) := rfl
      rw [hdata, List.dropWhile_cons_of_pos (by decide), hd, List.cons_append,
        List.dropWhile_cons_of_neg (by simp [hc]), ← List.cons_append, ← hd,
        List.reverse_append, hr,
        show (['\n', '\n', ' ', ' ', ' ', ' '] : List Char).reverse
          = [' ', ' ', ' ', ' ', '\n', '\n'] from by decide]
      simp only [List.cons_append, List.nil_append]
      rw [List.dropWhile_cons_of_pos (by decide), List.dropWhile_cons_of_pos (by decide),
        List.dropWhile_cons_of_pos (by decide), List.dropWhile_cons_of_pos (by decide),
        List.dropWhile_cons_of_pos (by decide), List.dropWhile_cons_of_pos (by decide),
        List.dropWhile_cons_of_neg (by simp [hdw]), ← hr, List.reverse_reverse]

/-- The exported text for the spec example, as a function of the click
time: the template trimmed down to its payload. -/
theorem downloadContent_exResult (now : String) :
    downloadContent now exResult exResponses
      = "Assessment Results\nDate: " ++ (now ++ exTail) := by
  have hbody : downloadContent now exResult exResponses
      = jsTrim ("\n" ++ ("Assessment Results\nDate: " ++ (now ++ exTail)) ++ "\n\n    ") := by
    unfold downloadContent
    refine congrArg jsTrim ?_
    refine string_data_ext _ _ ?_
    simp only [String.data_append, List.append_assoc]
    rfl
  rw [hbody]
  refine jsTrim_sandwich _ rfl ?_
  have hrev : ("Assessment Results\nDate: " ++ (now ++ exTail)).data.reverse
      = exTail.data.reverse ++ (now.data.reverse ++ "Assessment Results\nDate: ".data.reverse) := by
    simp [String.data_append, List.reverse_append]
  rw [hrev]
  exact headNonWS_append _ _ (by decide)

/-- C1: `getScoreColor` assigns exactly the four fixed tiers by the
thresholds 40, 30, 20, deterministically (it is a function), and the tier
is monotone in the score. -/
theorem getScoreColor_tier_bands (s : Int) :
    (40 ≤ s → getScoreColor s = "text-green-500") ∧
    (30 ≤ s ∧ s < 40 → getScoreColor s = "text-blue-500") ∧
    (20 ≤ s ∧ s < 30 → getScoreColor s = "text-yellow-500") ∧
    (s < 20 → getScoreColor s = "text-red-500") ∧
    (∀ t : Int, s ≤ t → colorRank (getScoreColor s) ≤ colorRank (getScoreColor t)) := by
  unfold getScoreColor
  refine ⟨fun h => ?_, fun h => ?_, fun h => ?_, fun h => ?_, fun t ht => ?_⟩ <;>
    split_ifs <;> first | rfl | decide | omega

/-- Witness for C1 at the concrete scores 42, 35, 25 and 7. -/
theorem getScoreColor_tier_bands_witness :
    getScoreColor 42 = "text-green-500" ∧ getScoreColor 35 = "text-blue-500" ∧
    getScoreColor 25 = "text-yellow-500" ∧ getScoreColor 7 = "text-red-500" ∧
    colorRank (getScoreColor 25) ≤ colorRank (getScoreColor 42) :=
  ⟨(getScoreColor_tier_bands 42).1 (by decide),
   (getScoreColor_tier_bands 35).2.1 (by decide),
   (getScoreColor_tier_bands 25).2.2.1 (by decide),
   (getScoreColor_tier_bands 7).2.2.2.1 (by decide),
   (getScoreColor_tier_bands 25).2.2.2.2 42 (by decide)⟩

/-- C2 counterexample: the exported text is not a function of `results`
and `responses` alone — the same results and responses produce different
text when the download button is clicked at two different times, because
the content embeds `new Date().toLocaleString()` in its Date line. -/
theorem downloadContent_time_dependent :
    downloadContent "1/1/2024, 10:00:00 AM" exResult exResponses ≠
      downloadContent "1/2/2024, 10:00:00 AM" exResult exResponses := by
  decide

/-- C2 (amended): with the click time fixed, the exported text is a pure
function of `results` and `responses`, and depends on `results` only
through `overallScore` and `insights`. -/
theorem downloadContent_pure_given_time (now : String) (r1 r2 : AssessmentResult)
    (resp1 resp2 : List (String × String))
    (hscore : r1.overallScore = r2.overallScore) (hins : r1.insights = r2.insights)
    (hresp : resp1 = resp2) :
    downloadContent now r1 resp1 = downloadContent now r2 resp2 := by
  unfold downloadContent
  rw [hscore, hins, hresp]

/-- Witness for the amended C2: two results differing in `scores`,
`metrics` and `assessmentId` export the same text at the same time. -/
theorem downloadContent_pure_given_time_witness :
    downloadContent "1/1/2024, 10:00:00 AM" exResult exResponses =
      downloadContent "1/1/2024, 10:00:00 AM" exResultB exResponses :=
  downloadContent_pure_given_time "1/1/2024, 10:00:00 AM" exResult exResultB
    exResponses exResponses rfl rfl rfl

/-- C3: with no `results` in the navigation payload the page renders the
placeholder whatever the responses and fetched history are (none of the
derivations feed it), and the mount flow issues exactly the session-check
effects — the history fetch is the one the session check triggers when a
session exists, never anything payload-dependent beyond that. -/
theorem no_results_placeholder_and_effects (session : Option String) (nav : NavState)
    (assessmentHistory : List HistoryRecord) (fmtDate : String → String)
    (h : nav.results = none) :
    pageAfterMount fmtDate nav assessmentHistory = RenderOutput.placeholder ∧
    mountEffects session nav = checkAuthEffects session := by
  refine ⟨?_, rfl⟩
  unfold pageAfterMount renderPage
  rw [h]
  rfl

/-- Witness for C3 at a concrete no-results payload with a live session
and a nonempty fetched history. -/
theorem no_results_placeholder_and_effects_witness :
    pageAfterMount (fun d => d) exNavNone exHistory2 = RenderOutput.placeholder ∧
    mountEffects (some "user-1") exNavNone = checkAuthEffects (some "user-1") :=
  no_results_placeholder_and_effects (some "user-1") exNavNone exHistory2 (fun d => d) rfl

/-- C5: any history-retrieval error is swallowed — the state is left as it
was (in particular empty when it started empty), exactly one
console-error entry is produced, a single query was issued (no retry),
and the page still renders with the chart section simply omitted. -/
theorem history_error_swallowed (e : String) (prior : List HistoryRecord)
    (r : AssessmentResult) (responses : List (String × String)) (fmtDate : String → String) :
    (fetchAssessmentHistory prior (Except.error e)).history = prior ∧
    (fetchAssessmentHistory [] (Except.error e)).history = [] ∧
    (fetchAssessmentHistory prior (Except.error e)).logs = ["Error fetching history: " ++ e] ∧
    (fetchAssessmentHistory prior (Except.error e)).queriesIssued = 1 ∧
    chartOf (renderPage fmtDate false (some r) responses
      (fetchAssessmentHistory [] (Except.error e)).history) = none :=
  ⟨rfl, rfl, rfl, rfl, rfl⟩

/-- C9: the `selectedQuestions` payload field interferes with nothing —
two payloads that agree on `results` and `responses` produce the same
render (same table rows, chart, score color) and the same mount effects,
whatever their `selectedQuestions` fields hold. -/
theorem selectedQuestions_noninterference (s1 s2 : NavState) (session : Option String)
    (assessmentHistory : List HistoryRecord) (fmtDate : String → String)
    (hres : s1.results = s2.results) (hresp : s1.responses = s2.responses) :
    pageAfterMount fmtDate s1 assessmentHistory = pageAfterMount fmtDate s2 assessmentHistory ∧
    mountEffects session s1 = mountEffects session s2 := by
  refine ⟨?_, rfl⟩
  unfold pageAfterMount
  rw [hres, hresp]

/-- Witness for C9: concrete payloads differing only in
`selectedQuestions` render identically. -/
theorem selectedQuestions_noninterference_witness :
    pageAfterMount (fun d => d) exNavA exHistory2 = pageAfterMount (fun d => d) exNavB exHistory2 ∧
    mountEffects (some "user-1") exNavA = mountEffects (some "user-1") exNavB :=
  selectedQuestions_noninterference exNavA exNavB (some "user-1") exHistory2 (fun d => d) rfl rfl

/-- C7: a response entry whose question id matches no entry of the static
bank (including an unparseable id, whose `NaN` matches nothing) still
yields a row — the derivation is total, one row per entry — and that row
falls back to "Unknown question" and the "Unknown" category. -/
theorem unknown_question_row (qid ans : String) (resp : List (String × String))
    (h : ∀ q ∈ questionBank, parseIntJS qid ≠ some q.id) :
    (tableData resp).length = resp.length ∧
    (mkTableRow (qid, ans)).question = "Unknown question" ∧
    (mkTableRow (qid, ans)).category = "Unknown" := by
  have hfind : questionBank.find? (fun q => some q.id == parseIntJS qid) = none := by
    rw [List.find?_eq_none]
    intro q hq
    simp only [beq_iff_eq]
    exact fun hc => h q hq hc.symm
  refine ⟨List.length_map resp mkTableRow, ?_, ?_⟩
  · show jsOr ((questionBank.find? (fun q => some q.id == parseIntJS qid)).map Question.text)
        "Unknown question" = "Unknown question"
    rw [hfind]
    rfl
  · show jsOr ((questionBank.find? (fun q => some q.id == parseIntJS qid)).map Question.category)
        "Unknown" = "Unknown"
    rw [hfind]
    rfl

/-- Witness for C7 at the unknown id "99". -/
theorem unknown_question_row_witness :
    (tableData [("99", "4")]).length = 1 ∧
    (mkTableRow ("99", "4")).question = "Unknown question" ∧
    (mkTableRow ("99", "4")).category = "Unknown" :=
  unknown_question_row "99" "4" [("99", "4")] (by decide)

/-- C8: the displayed answer goes through the fixed five-entry
`scaleLabels` table — each code "1".."5" maps to its label, "3" in
particular to "Fair" — and any code outside the table renders verbatim as
the raw code string, for every question id. -/
theorem answer_label_table (qid ans : String)
    (h : ∀ p ∈ scaleLabels, p.1 ≠ ans) :
    (mkTableRow (qid, "1")).answer = "Very Poor" ∧
    (mkTableRow (qid, "2")).answer = "Poor" ∧
    (mkTableRow (qid, "3")).answer = "Fair" ∧
    (mkTableRow (qid, "4")).answer = "Good" ∧
    (mkTableRow (qid, "5")).answer = "Excellent" ∧
    (mkTableRow (qid, ans)).answer = ans := by
  have hfind : scaleLabels.find? (fun p => p.1 == ans) = none := by
    rw [List.find?_eq_none]
    intro p hp
    simpa using h p hp
  refine ⟨rfl, rfl, rfl, rfl, rfl, ?_⟩
  show jsOr ((scaleLabels.find? (fun p => p.1 == ans)).map (fun p => p.2)) ans = ans
  rw [hfind]
  rfl

/-- Witness for C8 at the out-of-range code "7". -/
theorem answer_label_table_witness :
    (mkTableRow ("2", "1")).answer = "Very Poor" ∧
    (mkTableRow ("2", "2")).answer = "Poor" ∧
    (mkTableRow ("2", "3")).answer = "Fair" ∧
    (mkTableRow ("2", "4")).answer = "Good" ∧
    (mkTableRow ("2", "5")).answer = "Excellent" ∧
    (mkTableRow ("2", "7")).answer = "7" :=
  answer_label_table "2" "7" (by decide)

/-- C10: a response entry with an unparseable answer code still derives a
row (the derivation is total), its score field is the `NaN` of
`parseInt`, the score cell renders as "NaN/5", and only the answer label
falls back to the raw code. -/
theorem unparseable_answer_NaN_score (qid ans : String) (h : parseIntJS ans = none) :
    (mkTableRow (qid, ans)).score = none ∧
    renderScoreCell (mkTableRow (qid, ans)).score = "NaN/5" ∧
    (mkTableRow (qid, ans)).answer = ans ∧
    tableData [(qid, ans)] = [mkTableRow (qid, ans)] := by
  have hscore : (mkTableRow (qid, ans)).score = none := h
  have hfind : scaleLabels.find? (fun p => p.1 == ans) = none := by
    rw [List.find?_eq_none]
    intro p hp
    simp only [scaleLabels, List.mem_cons, List.not_mem_nil, or_false] at hp
    rcases hp with rfl | rfl | rfl | rfl | rfl <;>
      · simp only [beq_iff_eq]
        intro hcontra
        rw [← hcontra] at h
        exact absurd h (by decide)
  refine ⟨hscore, ?_, ?_, rfl⟩
  · rw [hscore]
    rfl
  · show jsOr ((scaleLabels.find? (fun p => p.1 == ans)).map (fun p => p.2)) ans = ans
    rw [hfind]
    rfl

/-- Witness for C10 at the unparseable code "abc". -/
theorem unparseable_answer_NaN_score_witness :
    (mkTableRow ("1", "abc")).score = none ∧
    renderScoreCell (mkTableRow ("1", "abc")).score = "NaN/5" ∧
    (mkTableRow ("1", "abc")).answer = "abc" ∧
    tableData [("1", "abc")] = [mkTableRow ("1", "abc")] :=
  unparseable_answer_NaN_score "1" "abc" (by decide)

/-- C4: the trend chart is gated on more than one fetched record — absent
for history length 0 or 1, present for length at least 2 with exactly one
point per record — and the series runs oldest-first (the reverse of the
newest-first fetch order), point i (1-based) being labeled
"Assessment i" and carrying that record's stored overall score and
formatted date. -/
theorem chart_gate_and_points (fmtDate : String → String) (r : AssessmentResult)
    (responses : List (String × String)) (assessmentHistory : List HistoryRecord) :
    (chartData fmtDate assessmentHistory).length = assessmentHistory.length ∧
    (assessmentHistory.length ≤ 1 →
      chartOf (renderPage fmtDate false (some r) responses assessmentHistory) = none) ∧
    (2 ≤ assessmentHistory.length →
      chartOf (renderPage fmtDate false (some r) responses assessmentHistory) =
        some (chartData fmtDate assessmentHistory)) ∧
    (∀ i p, (chartData fmtDate assessmentHistory)[i]? = some p →
      p.name = "Assessment " ++ toString (i + 1) ∧
      ∃ a, assessmentHistory.reverse[i]? = some a ∧
        p.score = a.overall_score ∧ p.date = fmtDate a.created_at) := by
  have hlen : (chartData fmtDate assessmentHistory).length = assessmentHistory.length := by
    simp [chartData]
  refine ⟨hlen, ?_, ?_, ?_⟩
  · intro h
    show (if (chartData fmtDate assessmentHistory).length > 1
        then some (chartData fmtDate assessmentHistory) else none) = none
    rw [if_neg (by omega)]
  · intro h
    show (if (chartData fmtDate assessmentHistory).length > 1
        then some (chartData fmtDate assessmentHistory) else none) =
      some (chartData fmtDate assessmentHistory)
    rw [if_pos (by omega)]
  · intro i p hp
    rw [show chartData fmtDate assessmentHistory =
        assessmentHistory.reverse.mapIdx
          (fun index assessment =>
            ChartPoint.mk ("Assessment " ++ toString (index + 1)) assessment.overall_score
              (fmtDate assessment.created_at)) from rfl,
      List.getElem?_mapIdx] at hp
    obtain ⟨a, ha, hfa⟩ := Option.map_eq_some'.mp hp
    subst hfa
    exact ⟨rfl, a, ha, rfl, rfl⟩

/-- Witness for C4: the two-record history renders a chart whose first
point is "Assessment 1" carrying the older score 30. -/
theorem chart_gate_and_points_witness :
    chartOf (renderPage (fun d => d) false (some exResult) [] exHistory2) =
      some (chartData (fun d => d) exHistory2) ∧
    ((ChartPoint.mk "Assessment 1" 30 "d1").name = "Assessment " ++ toString (0 + 1) ∧
      ∃ a, exHistory2.reverse[0]? = some a ∧
        (ChartPoint.mk "Assessment 1" 30 "d1").score = a.overall_score ∧
        (ChartPoint.mk "Assessment 1" 30 "d1").date = (fun d => d) a.created_at) :=
  ⟨(chart_gate_and_points (fun d => d) exResult [] exHistory2).2.2.1 (by decide),
   (chart_gate_and_points (fun d => d) exResult [] exHistory2).2.2.2 0
     (ChartPoint.mk "Assessment 1" 30 "d1") (by decide)⟩

/-- C6: for the spec example (overallScore 42, insights "Good balance",
responses 1 ↦ "4" and 2 ↦ "5"), the exported text contains "42/50",
contains "Good balance", and contains the two question/answer line pairs
contiguously in input order, whatever the click time is. -/
theorem export_contains_expected_fragments (now : String) :
    containsSub (downloadContent now exResult exResponses) "42/50" ∧
    containsSub (downloadContent now exResult exResponses) "Good balance" ∧
    containsSub (downloadContent now exResult exResponses)
      ("Q: How would you rate your overall mood today?\nA: Good\n\n" ++
        "Q: How well did you sleep last night?\nA: Excellent") := by
  refine ⟨⟨"Assessment Results\nDate: " ++ (now ++ "\nOverall Score: "),
      "\n\nInsights:\nGood balance\n\nQuestions & Answers:\n" ++
        "Q: How would you rate your overall mood today?\nA: Good\n\n" ++
        "Q: How well did you sleep last night?\nA: Excellent", ?_⟩,
    ⟨"Assessment Results\nDate: " ++ (now ++ "\nOverall Score: 42/50\n\nInsights:\n"),
      "\n\nQuestions & Answers:\n" ++
        "Q: How would you rate your overall mood today?\nA: Good\n\n" ++
        "Q: How well did you sleep last night?\nA: Excellent", ?_⟩,
    ⟨"Assessment Results\nDate: " ++
        (now ++ "\nOverall Score: 42/50\n\nInsights:\nGood balance\n\nQuestions & Answers:\n"),
      "", ?_⟩⟩ <;>
  · rw [downloadContent_exResult]
    refine string_data_ext _ _ ?_
    simp only [String.data_append, List.append_assoc]
    rfl

end AssessmentResults
